import Mathlib

/-!
Verification of the JsSIP signaling core (Dialog, RTCSession, Refer, Notify,
Message) against its natural-language specification.

Each JavaScript function relevant to a claim is shallowly embedded as an
executable Lean definition: object state becomes a structure, mutation becomes
explicit state passing, `setTimeout` becomes an armed-timer field, outgoing
requests / replies / emitted events are collected in lists, and `throw`
becomes `Except.error`.  JavaScript numeric falsiness (`undefined` and `0`
both falsy) is modelled explicitly where the source relies on it.
-/

/-- SIP methods used by the core (the `JsSIP.C` method constants). -/
inductive Method where
  | INVITE | ACK | BYE | CANCEL | UPDATE | INFO | MESSAGE | REFER | NOTIFY | SUBSCRIBE
  deriving DecidableEq, Repr

/-- Transaction states (the `JsSIP.Transactions.C` constants used by
`Dialog.prototype.checkInDialogRequest`). -/
inductive TxState where
  | trying | proceeding | completed | confirmed | terminated
  deriving DecidableEq, Repr

/-- JavaScript truthiness of an optional number: `undefined` and `0` are
falsy, every other number is truthy (`!this.remote_seqnum`,
`!this.local_seqnum`, `!duration`, ...). -/
def jsTruthyNum : Option Nat → Bool
  | none => false
  | some 0 => false
  | some (_ + 1) => true

/-- An incoming in-dialog request as seen by the Dialog gatekeeper: its
method, CSeq number and the server transaction created for it. -/
structure InDialogReq where
  method : Method
  cseq : Nat
  server_transaction : TxState
  deriving DecidableEq, Repr

/-- The mutable Dialog fields read and written by
`Dialog.prototype.checkInDialogRequest`. -/
structure DialogGateState where
  remote_seqnum : Option Nat
  last_invite_tx : Option TxState
  last_update_tx : Option TxState
  deriving DecidableEq, Repr

/-- Result of the gatekeeper: the updated dialog fields, whether the request
was accepted (the JS return value), and the replies sent
(status code, extra headers). -/
structure GateResult where
  state : DialogGateState
  accepted : Bool
  replies : List (Nat × List String)
  deriving DecidableEq, Repr

/-- The `switch(request.method)` tail of `checkInDialogRequest`: the
INVITE/UPDATE "one in-progress modifier" checks (RFC 3261 14.2 / RFC 3311
5.2).  `retryAfter` stands for the random `(Math.random() * 10 | 0) + 1`. -/
def checkMethodTx (d : DialogGateState) (req : InDialogReq) (retryAfter : Nat) :
    GateResult :=
  match req.method with
  | Method.INVITE =>
      if d.last_invite_tx = some TxState.proceeding then
        { state := d, accepted := false,
          replies := [(500, ["Retry-After:" ++ toString retryAfter])] }
      else
        { state := { d with last_invite_tx := some req.server_transaction },
          accepted := true, replies := [] }
  | Method.UPDATE =>
      if d.last_update_tx = some TxState.trying ∨
          d.last_update_tx = some TxState.proceeding then
        { state := d, accepted := false,
          replies := [(500, ["Retry-After:" ++ toString retryAfter])] }
      else
        { state := { d with last_update_tx := some req.server_transaction },
          accepted := true, replies := [] }
  | _ => { state := d, accepted := true, replies := [] }

/-- `Dialog.prototype.checkInDialogRequest` (RFC 3261 12.2.2).  Note the
JavaScript falsiness test `if(!this.remote_seqnum)`: an unset remote CSeq and
a remote CSeq equal to `0` both take the adoption branch. -/
def checkInDialogRequest (d : DialogGateState) (req : InDialogReq)
    (retryAfter : Nat) : GateResult :=
  if jsTruthyNum d.remote_seqnum = false then
    checkMethodTx { d with remote_seqnum := some req.cseq } req retryAfter
  else if req.cseq < d.remote_seqnum.getD 0 then
    { state := d, accepted := false,
      replies := if req.method = Method.ACK then [] else [(500, [])] }
  else if req.cseq > d.remote_seqnum.getD 0 then
    checkMethodTx { d with remote_seqnum := some req.cseq } req retryAfter
  else
    checkMethodTx d req retryAfter

theorem checkMethodTx_remote_seqnum (d : DialogGateState) (req : InDialogReq)
    (ra : Nat) : (checkMethodTx d req ra).state.remote_seqnum = d.remote_seqnum := by
  unfold checkMethodTx
  cases req.method <;> simp only [] <;> split <;> rfl

/-- C2: for every in-dialog request checked by the Dialog gatekeeper: with no
`remote_seqnum` yet it adopts the request's CSeq; a CSeq strictly below
`remote_seqnum` is rejected with a single 500 reply unless the method is ACK
(an ACK gets no reply at all, but is still rejected); a CSeq strictly above
advances `remote_seqnum`; and `remote_seqnum` never decreases once set. -/
theorem dialog_gate_cseq_C2 (d : DialogGateState) (req : InDialogReq) (ra : Nat) :
    (d.remote_seqnum = none →
      (checkInDialogRequest d req ra).state.remote_seqnum = some req.cseq) ∧
    (∀ v, d.remote_seqnum = some v → req.cseq < v →
      (checkInDialogRequest d req ra).accepted = false ∧
      (checkInDialogRequest d req ra).replies =
        (if req.method = Method.ACK then [] else [(500, [])]) ∧
      (checkInDialogRequest d req ra).state.remote_seqnum = some v) ∧
    (∀ v, d.remote_seqnum = some v → v < req.cseq →
      (checkInDialogRequest d req ra).state.remote_seqnum = some req.cseq) ∧
    (∀ v, d.remote_seqnum = some v →
      ∃ w, (checkInDialogRequest d req ra).state.remote_seqnum = some w ∧ v ≤ w) := by
  refine ⟨?_, ?_, ?_, ?_⟩
  · intro h
    unfold checkInDialogRequest
    rw [h]
    simp [jsTruthyNum, checkMethodTx_remote_seqnum]
  · intro v hv hlt
    have hvpos : 0 < v := Nat.pos_of_ne_zero (by omega)
    unfold checkInDialogRequest
    rw [hv]
    have ht : jsTruthyNum (some v) = true := by
      cases v with
      | zero => omega
      | succ n => rfl
    simp [ht, hlt, Option.getD, hv]
  · intro v hv hgt
    unfold checkInDialogRequest
    rw [hv]
    cases v with
    | zero =>
      simp [jsTruthyNum, checkMethodTx_remote_seqnum]
    | succ n =>
      have hnlt : ¬ req.cseq < n + 1 := by omega
      simp [jsTruthyNum, hnlt, hgt, checkMethodTx_remote_seqnum]
  · intro v hv
    unfold checkInDialogRequest
    rw [hv]
    cases v with
    | zero =>
      refine ⟨req.cseq, ?_, Nat.zero_le _⟩
      simp [jsTruthyNum, checkMethodTx_remote_seqnum]
    | succ n =>
      by_cases hlt : req.cseq < n + 1
      · refine ⟨n + 1, ?_, Nat.le_refl _⟩
        simp [jsTruthyNum, hlt, hv]
      · by_cases hgt : n + 1 < req.cseq
        · refine ⟨req.cseq, ?_, by omega⟩
          simp [jsTruthyNum, hlt, hgt, checkMethodTx_remote_seqnum]
        · refine ⟨n + 1, ?_, Nat.le_refl _⟩
          simp [jsTruthyNum, hlt, hgt, checkMethodTx_remote_seqnum, hv]

theorem dialog_gate_cseq_C2_witness :
    (checkInDialogRequest ⟨some 5, none, none⟩ ⟨Method.BYE, 3, TxState.trying⟩ 1).accepted
      = false ∧
    (checkInDialogRequest ⟨some 5, none, none⟩ ⟨Method.BYE, 3, TxState.trying⟩ 1).replies
      = [(500, [])] :=
  ⟨((dialog_gate_cseq_C2 ⟨some 5, none, none⟩ ⟨Method.BYE, 3, TxState.trying⟩ 1).2.1
      5 rfl (by decide)).1,
   by
    have h := ((dialog_gate_cseq_C2 ⟨some 5, none, none⟩
      ⟨Method.BYE, 3, TxState.trying⟩ 1).2.1 5 rfl (by decide)).2.1
    simpa using h⟩

/-- Modelled from the spec: the `JsSIP.Timers` module is not under src/.
Spec §6: T1 = 500 ms. -/
def T1 : Nat := 500

/-- Modelled from the spec: the `JsSIP.Timers` module is not under src/.
Spec §6: T2 = 4 s. -/
def T2 : Nat := 4000

/-- Modelled from the spec: the `JsSIP.Timers` module is not under src/.
Spec §6: Timer H derived per RFC 3261, i.e. 64 × T1. -/
def TIMER_H : Nat := 64 * T1

/-- RTCSession states (the `RTCSession.C` status constants). -/
inductive SessionStatus where
  | null | inviteSent | oneXxReceived | inviteReceived | waitingForAnswer
  | waitingForAck | canceled | terminated | confirmed
  deriving DecidableEq, Repr

/-- The RTCSession fields involved in the 2xx-retransmission / ACK-wait
machinery of `answer` (replySucceeded) and `receiveRequest` (ACK case).
`invite2xxTimer` holds the delay the retransmission timer is currently armed
with; `sent200` counts 2xx retransmissions; `byes` counts BYEs sent. -/
structure AckSt where
  status : SessionStatus
  invite2xxTimer : Option Nat
  ackTimer : Bool
  lastReinviteWaiting : Bool
  sent200 : Nat
  byes : Nat
  deriving DecidableEq, Repr

/-- The timeout update in `invite2xxRetransmission`:
`if (timeout < T2) { timeout = timeout * 2; if (timeout > T2) timeout = T2; }`. -/
def nextTimeout (t : Nat) : Nat :=
  if t < T2 then (if 2 * t > T2 then T2 else 2 * t) else t

/-- The `replySucceeded` callback of `RTCSession.prototype.answer`: enter
WaitingForAck, arm the 2xx retransmission timer at T1 and the ACK-wait timer
(Timer H). -/
def replySucceeded (s : AckSt) : AckSt :=
  { s with
    status := SessionStatus.waitingForAck
    invite2xxTimer := some T1
    ackTimer := true }

/-- One firing of the `invite2xxRetransmission` timer callback: if the
session is no longer WaitingForAck it returns without retransmitting or
re-arming; otherwise it retransmits the 200 and re-arms with the doubled,
T2-capped timeout. -/
def invite2xxFire (s : AckSt) : AckSt :=
  match s.invite2xxTimer with
  | none => s
  | some t =>
      if s.status ≠ SessionStatus.waitingForAck then
        { s with invite2xxTimer := none }
      else
        { s with sent200 := s.sent200 + 1, invite2xxTimer := some (nextTimeout t) }

/-- Firing of the ACK-wait (`ackTimer`, Timer H) callback: if still
WaitingForAck, clear the retransmission timer, send BYE and end the call
(`ended` closes the session, which clears every timer and sets Terminated). -/
def ackTimerFire (s : AckSt) : AckSt :=
  if s.ackTimer = false then s
  else if s.status = SessionStatus.waitingForAck then
    { s with
      status := SessionStatus.terminated
      invite2xxTimer := none
      ackTimer := false
      byes := s.byes + 1 }
  else { s with ackTimer := false }

/-- The ACK case of `RTCSession.prototype.receiveRequest`: in WaitingForAck,
cancel both timers and move to Confirmed; otherwise the request is delegated
to a re-INVITE in WaitingForAck (which does not touch these fields). -/
def sessionReceiveAck (s : AckSt) : AckSt :=
  if s.status = SessionStatus.waitingForAck then
    { s with
      status := SessionStatus.confirmed
      invite2xxTimer := none
      ackTimer := false }
  else s

/-- Events that can reach the ACK-wait machinery. -/
inductive AckEv where
  | fire2xx | fireAckTimer | recvAck
  deriving DecidableEq, Repr

def ackStep (s : AckSt) : AckEv → AckSt
  | AckEv.fire2xx => invite2xxFire s
  | AckEv.fireAckTimer => ackTimerFire s
  | AckEv.recvAck => sessionReceiveAck s

def ackRun (s : AckSt) (evs : List AckEv) : AckSt := evs.foldl ackStep s

theorem ackStep_confirmed (s : AckSt) (e : AckEv)
    (h : s.status = SessionStatus.confirmed) :
    (ackStep s e).status = SessionStatus.confirmed ∧
    (ackStep s e).sent200 = s.sent200 := by
  cases e with
  | fire2xx =>
      cases hT : s.invite2xxTimer with
      | none => simp [ackStep, invite2xxFire, hT, h]
      | some t => simp [ackStep, invite2xxFire, hT, h]
  | fireAckTimer =>
      by_cases hA : s.ackTimer = false <;> simp [ackStep, ackTimerFire, hA, h]
  | recvAck => simp [ackStep, sessionReceiveAck, h]

theorem ackRun_confirmed : ∀ (evs : List AckEv) (s : AckSt),
    s.status = SessionStatus.confirmed →
    (ackRun s evs).status = SessionStatus.confirmed ∧
    (ackRun s evs).sent200 = s.sent200 := by
  intro evs
  induction evs with
  | nil => intro s h; exact ⟨h, rfl⟩
  | cons e evs ih =>
      intro s h
      have hstep := ackStep_confirmed s e h
      have h2 := ih (ackStep s e) hstep.1
      exact ⟨h2.1, by rw [show (ackRun s (e :: evs)).sent200
        = (ackRun (ackStep s e) evs).sent200 from rfl, h2.2, hstep.2]⟩

/-- C1: after the 200 to the initial INVITE is sent (WaitingForAck), the 2xx
retransmission timer starts at T1 and on each firing retransmits the 200 and
re-arms with the doubled timeout capped at T2, continuing as long as the
session stays in WaitingForAck; an ACK in WaitingForAck moves the session to
Confirmed and cancels both the 2xx-retransmission and ACK-wait timers, after
which no sequence of further events ever retransmits the 200 again; Timer H
firing in WaitingForAck stops retransmission and sends a BYE. -/
theorem session_2xx_retransmission_C1 :
    (∀ s : AckSt, (replySucceeded s).status = SessionStatus.waitingForAck ∧
      (replySucceeded s).invite2xxTimer = some T1 ∧
      (replySucceeded s).ackTimer = true) ∧
    (∀ t, t ≤ T2 → nextTimeout t = min (2 * t) T2) ∧
    (∀ (s : AckSt) (t : Nat), s.status = SessionStatus.waitingForAck →
      s.invite2xxTimer = some t →
      invite2xxFire s = { s with
        sent200 := s.sent200 + 1
        invite2xxTimer := some (nextTimeout t) }) ∧
    (∀ s : AckSt, s.status = SessionStatus.waitingForAck →
      (sessionReceiveAck s).status = SessionStatus.confirmed ∧
      (sessionReceiveAck s).invite2xxTimer = none ∧
      (sessionReceiveAck s).ackTimer = false ∧
      (sessionReceiveAck s).sent200 = s.sent200) ∧
    (∀ s : AckSt, s.status = SessionStatus.waitingForAck → s.ackTimer = true →
      (ackTimerFire s).status = SessionStatus.terminated ∧
      (ackTimerFire s).invite2xxTimer = none ∧
      (ackTimerFire s).byes = s.byes + 1) ∧
    (∀ (s : AckSt) (evs : List AckEv), s.status = SessionStatus.waitingForAck →
      (ackRun (sessionReceiveAck s) evs).sent200 = s.sent200) := by
  refine ⟨?_, ?_, ?_, ?_, ?_, ?_⟩
  · intro s; exact ⟨rfl, rfl, rfl⟩
  · intro t ht
    unfold nextTimeout T2 at *
    split_ifs <;> omega
  · intro s t hst hT
    unfold invite2xxFire
    rw [hT]
    simp [hst]
  · intro s hst
    simp [sessionReceiveAck, hst]
  · intro s hst hA
    simp [ackTimerFire, hst, hA]
  · intro s evs hst
    have hc : (sessionReceiveAck s).status = SessionStatus.confirmed := by
      simp [sessionReceiveAck, hst]
    have h2 := ackRun_confirmed evs (sessionReceiveAck s) hc
    rw [h2.2]
    simp [sessionReceiveAck, hst]

theorem session_2xx_retransmission_C1_witness :
    nextTimeout T1 = min (2 * T1) T2 ∧
    (ackRun (sessionReceiveAck
      ⟨SessionStatus.waitingForAck, some T1, true, false, 3, 0⟩)
      [AckEv.fire2xx, AckEv.fireAckTimer, AckEv.recvAck]).sent200 = 3 :=
  ⟨session_2xx_retransmission_C1.2.1 T1 (by decide),
   session_2xx_retransmission_C1.2.2.2.2.2
     ⟨SessionStatus.waitingForAck, some T1, true, false, 3, 0⟩
     [AckEv.fire2xx, AckEv.fireAckTimer, AckEv.recvAck] rfl⟩

/-- JavaScript truthiness of an optional string: `undefined` and the empty
string are falsy. -/
def jsTruthyStr : Option String → Bool
  | none => false
  | some s => s ≠ ""

/-- The JavaScript `a || b` idiom on an optional string. -/
def jsStrOr (a : Option String) (b : String) : String :=
  match a with
  | none => b
  | some s => if s = "" then b else s

/-- Options bag accepted by `RTCSession.prototype.terminate` and `sendBye`. -/
structure TermOptions where
  status_code : Option Nat
  reason_phrase : Option String
  extraHeaders : List String
  deriving DecidableEq, Repr

/-- RTCSession fields read and written by `terminate`. -/
structure TermSt where
  status : SessionStatus
  isCanceled : Bool
  cancelReason : Option String
  received_100 : Bool
  deriving DecidableEq, Repr

/-- A message sent by `terminate`: a CANCEL of the pending INVITE, a reply to
the incoming INVITE, or a BYE built on the dialog (with its extra headers). -/
inductive TermMsg where
  | cancelSent (reason : Option String)
  | reply (code : Nat)
  | bye (extraHeaders : List String)
  deriving DecidableEq, Repr

/-- Session events emitted by `terminate` (via `failed` / `ended`). -/
inductive TermEvent where
  | failedEv (originator : String) (cause : String)
  | endedEv (originator : String) (cause : String)
  deriving DecidableEq, Repr

/-- JavaScript exceptions thrown by the embedded functions. -/
inductive JsError where
  | invalidState
  | typeError
  deriving DecidableEq, Repr

/-- The status-code validation and cancel-reason construction at the top of
the UAC arm of `terminate` (`REASON_PHRASE` is a table of default reason
phrases from the missing `JsSIP.C`; it is passed in as `rp`). -/
def cancelPrep (opts : TermOptions) (rp : Nat → Option String) :
    Except JsError (Option String) :=
  if jsTruthyNum opts.status_code = true then
    if opts.status_code.getD 0 < 200 ∨ 700 ≤ opts.status_code.getD 0 then
      Except.error JsError.typeError
    else
      Except.ok (some ("SIP ;cause=" ++ toString (opts.status_code.getD 0) ++
        " ;text=\"" ++ jsStrOr opts.reason_phrase
          (jsStrOr (opts.status_code.bind rp) "") ++ "\""))
  else Except.ok none

/-- `RTCSession.prototype.sendBye`: validates the status code, builds the
Reason header when a status code is supplied, and sends a BYE on the dialog. -/
def sendByeModel (opts : TermOptions) (rp : Nat → Option String) :
    Except JsError TermMsg :=
  let reason_phrase := jsStrOr opts.reason_phrase
    (jsStrOr (opts.status_code.bind rp) "")
  if jsTruthyNum opts.status_code = true then
    if opts.status_code.getD 0 < 200 ∨ 700 ≤ opts.status_code.getD 0 then
      Except.error JsError.typeError
    else
      Except.ok (TermMsg.bye (opts.extraHeaders ++
        ["Reason: SIP ;cause=" ++ toString (opts.status_code.getD 0) ++
          "; text=\"" ++ reason_phrase ++ "\""]))
  else Except.ok (TermMsg.bye opts.extraHeaders)

/-- `RTCSession.prototype.terminate`: throws InvalidStateError when already
Terminated; otherwise cancels / rejects / sends BYE according to the current
status, emits `failed` or `ended`, and closes the session (which sets
Terminated).  The result is the new session state, the messages sent and the
events emitted. -/
def terminateRTC (s : TermSt) (opts : TermOptions) (rp : Nat → Option String) :
    Except JsError (TermSt × List TermMsg × List TermEvent) :=
  if s.status = SessionStatus.terminated then Except.error JsError.invalidState
  else
    match s.status with
    | SessionStatus.null =>
        match cancelPrep opts rp with
        | Except.error e => Except.error e
        | Except.ok cr =>
            Except.ok ({ s with
              status := SessionStatus.terminated
              isCanceled := true
              cancelReason := cr },
              [], [TermEvent.failedEv "local" "CANCELED"])
    | SessionStatus.inviteSent =>
        match cancelPrep opts rp with
        | Except.error e => Except.error e
        | Except.ok cr =>
            if s.received_100 then
              Except.ok ({ s with status := SessionStatus.terminated },
                [TermMsg.cancelSent cr], [TermEvent.failedEv "local" "CANCELED"])
            else
              Except.ok ({ s with
                status := SessionStatus.terminated
                isCanceled := true
                cancelReason := cr },
                [], [TermEvent.failedEv "local" "CANCELED"])
    | SessionStatus.oneXxReceived =>
        match cancelPrep opts rp with
        | Except.error e => Except.error e
        | Except.ok cr =>
            Except.ok ({ s with status := SessionStatus.terminated },
              [TermMsg.cancelSent cr], [TermEvent.failedEv "local" "CANCELED"])
    | SessionStatus.waitingForAnswer =>
        let sc := if jsTruthyNum opts.status_code then opts.status_code.getD 0 else 480
        if sc < 300 ∨ 700 ≤ sc then Except.error JsError.typeError
        else
          Except.ok ({ s with status := SessionStatus.terminated },
            [TermMsg.reply sc], [TermEvent.failedEv "local" "REJECTED"])
    | SessionStatus.waitingForAck =>
        match sendByeModel opts rp with
        | Except.error e => Except.error e
        | Except.ok m =>
            Except.ok ({ s with status := SessionStatus.terminated },
              [m], [TermEvent.endedEv "local" "BYE"])
    | SessionStatus.confirmed =>
        match sendByeModel opts rp with
        | Except.error e => Except.error e
        | Except.ok m =>
            Except.ok ({ s with status := SessionStatus.terminated },
              [m], [TermEvent.endedEv "local" "BYE"])
    | _ => Except.ok ({ s with status := SessionStatus.terminated }, [], [])

def TermMsg.isBye : TermMsg → Bool
  | TermMsg.bye _ => true
  | _ => false

/-- C5: calling `terminate()` on a Session already Terminated has no effect
on the session — it raises InvalidStateError without changing state, sending
any message or emitting any event — and calling `terminate()` twice from
Confirmed sends exactly one BYE: the first call sends one BYE and moves to
Terminated, the second raises InvalidStateError and sends nothing. -/
theorem terminate_idempotent_C5 :
    (∀ (s : TermSt) (opts : TermOptions) (rp : Nat → Option String),
      s.status = SessionStatus.terminated →
      terminateRTC s opts rp = Except.error JsError.invalidState) ∧
    (∀ (s : TermSt) (opts : TermOptions) (rp : Nat → Option String),
      s.status = SessionStatus.confirmed →
      jsTruthyNum opts.status_code = false ∨
        (200 ≤ opts.status_code.getD 0 ∧ opts.status_code.getD 0 < 700) →
      ∃ s₂ m, terminateRTC s opts rp =
          Except.ok (s₂, [m], [TermEvent.endedEv "local" "BYE"]) ∧
        m.isBye = true ∧ s₂.status = SessionStatus.terminated ∧
        terminateRTC s₂ opts rp = Except.error JsError.invalidState) := by
  constructor
  · intro s opts rp h
    unfold terminateRTC
    simp [h]
  · intro s opts rp h hok
    have hbye : ∃ m, sendByeModel opts rp = Except.ok m ∧ m.isBye = true := by
      unfold sendByeModel
      rcases hok with hfal | ⟨h1, h2⟩
      · simp [hfal, TermMsg.isBye]
      · by_cases ht : jsTruthyNum opts.status_code = true
        · have hbad : ¬ (opts.status_code.getD 0 < 200 ∨ 700 ≤ opts.status_code.getD 0) := by
            omega
          simp [ht, hbad, TermMsg.isBye]
        · simp [ht, TermMsg.isBye]
    rcases hbye with ⟨m, hm, hmb⟩
    refine ⟨{ s with status := SessionStatus.terminated }, m, ?_, hmb, rfl, ?_⟩
    · unfold terminateRTC
      rw [h]
      simp [hm]
    · unfold terminateRTC
      simp

theorem terminate_idempotent_C5_witness :
    terminateRTC ⟨SessionStatus.terminated, false, none, true⟩
      ⟨none, none, []⟩ (fun _ => none) = Except.error JsError.invalidState ∧
    ∃ s₂ m, terminateRTC ⟨SessionStatus.confirmed, false, none, true⟩
        ⟨none, none, []⟩ (fun _ => none) =
        Except.ok (s₂, [m], [TermEvent.endedEv "local" "BYE"]) ∧
      m.isBye = true ∧ s₂.status = SessionStatus.terminated ∧
      terminateRTC s₂ ⟨none, none, []⟩ (fun _ => none) =
        Except.error JsError.invalidState :=
  ⟨terminate_idempotent_C5.1 ⟨SessionStatus.terminated, false, none, true⟩
     ⟨none, none, []⟩ (fun _ => none) rfl,
   terminate_idempotent_C5.2 ⟨SessionStatus.confirmed, false, none, true⟩
     ⟨none, none, []⟩ (fun _ => none) rfl (Or.inl rfl)⟩

/-- Modelled from the spec: the `JsSIP.C.causes` table is not under src/.
Spec §4.1: the session-timer BYE carries `Reason: ... cause=408
text="Session Timer"`, so `causes.SESSION_TIMER` is the string
"Session Timer". -/
def SESSION_TIMER_CAUSE : String := "Session Timer"

/-- `Dialog.C.DEFAULT_MIN_SE` (RFC 4028 default Min-SE, 90 s). -/
def DEFAULT_MIN_SE : Nat := 90

/-- A parsed Session-Expires header: interval in seconds plus the optional
`refresher` parameter. -/
structure SEHeader where
  interval : Nat
  refresher : Option String
  deriving DecidableEq, Repr

/-- The parts of an incoming message read by
`Dialog.prototype.processSessionTimerHeaders`: whether it is an
IncomingRequest (vs IncomingResponse), and its Min-SE / Session-Expires
headers. -/
structure STMsg where
  isRequest : Bool
  min_se : Option Nat
  session_expires : Option SEHeader
  deriving DecidableEq, Repr

/-- The two session-refresh timer behaviours installed by
`Dialog.prototype.setSessionRefreshTimer`. -/
inductive STAction where
  | refresh
  | byeAndEnd
  deriving DecidableEq, Repr

/-- An armed session-refresh timer: its timeout in seconds (the source
multiplies by 1000 for `setTimeout`) and its behaviour on firing. -/
structure STTimer where
  timeout : ℚ
  action : STAction
  deriving DecidableEq, Repr

/-- The Dialog's `session_timer` sub-state (RFC 4028). -/
structure SessionTimerState where
  interval : Option Nat
  min_interval : Nat
  localRefresher : Bool
  timer : Option STTimer
  deriving DecidableEq, Repr

/-- `Dialog.prototype.updateMinSessionExpires`. -/
def updateMinSessionExpires (st : SessionTimerState) (interval : Nat) :
    SessionTimerState :=
  if st.min_interval < interval then { st with min_interval := interval } else st

/-- `Dialog.prototype.setSessionRefreshTimer`: local refresher fires at
`interval / 2` and signals the owner to refresh; remote refresher fires at
`interval - max(interval / 3, 32)` and sends the session-timer BYE. -/
def setSessionRefreshTimer (st : SessionTimerState) : SessionTimerState :=
  let interval : ℚ := ((st.interval.getD 0 : Nat) : ℚ)
  if st.localRefresher then
    { st with timer := some { timeout := interval / 2, action := STAction.refresh } }
  else
    { st with
      timer := some (STTimer.mk (interval - max (interval / 3) 32) STAction.byeAndEnd) }

/-- `Dialog.prototype.clearSessionRefreshTimer`. -/
def clearSessionRefreshTimer (st : SessionTimerState) : SessionTimerState :=
  { st with timer := none }

/-- `Dialog.prototype.disableSessionRefresh`. -/
def disableSessionRefresh (st : SessionTimerState) : SessionTimerState :=
  { st with interval := none, timer := none }


/-- The refresher-role computation inside `processSessionTimerHeaders`:
from a request the parameter is optional (`localRefresher` starts `true` and
is overwritten by `refresher === 'uas'` only when a refresher parameter is
present); from a response `localRefresher = (refresher === 'uac')`. -/
def stRefresherRole (isRequest : Bool) (refresher : Option String) : Bool :=
  if isRequest then
    match refresher with
    | some r => decide (r = "uas")
    | none => true
  else
    decide (refresher = some "uac")

/-- The state just before `setSessionRefreshTimer` is invoked at the end of
`processSessionTimerHeaders` (Min-SE processed, timer cleared, interval and
refresher role adopted from the Session-Expires header `se`). -/
def stPrep (st : SessionTimerState) (m : STMsg) (se : SEHeader) :
    SessionTimerState :=
  { clearSessionRefreshTimer
      (match m.min_se with
       | some v => updateMinSessionExpires st v
       | none => st) with
    interval := some se.interval
    localRefresher := stRefresherRole m.isRequest se.refresher }

/-- `Dialog.prototype.processSessionTimerHeaders`. -/
def processSessionTimerHeaders (st : SessionTimerState) (m : STMsg) :
    SessionTimerState :=
  match m.session_expires with
  | none =>
      disableSessionRefresh
        (match m.min_se with
         | some v => updateMinSessionExpires st v
         | none => st)
  | some se => setSessionRefreshTimer (stPrep st m se)

/-- Observable effects of a session-refresh timer firing. -/
inductive STEffect where
  | emitRefresh
  | sendByeMsg (m : TermMsg)
  | endedEvent (originator : String) (cause : String)
  deriving DecidableEq, Repr

/-- Firing of the timer armed by `setSessionRefreshTimer`: the local
refresher action emits `refresh` to the owner; the remote-refresher action
sends `owner.sendBye({status_code: 408, reason_phrase: SESSION_TIMER})`
and then ends the session with originator `system`.  (`rp` is the missing
`REASON_PHRASE` table, unused here since a reason phrase is supplied.) -/
def fireSessionRefreshTimer (st : SessionTimerState) (rp : Nat → Option String) :
    SessionTimerState × List STEffect :=
  match st.timer with
  | none => (st, [])
  | some t =>
      match t.action with
      | STAction.refresh => ({ st with timer := none }, [STEffect.emitRefresh])
      | STAction.byeAndEnd =>
          match sendByeModel ⟨some 408, some SESSION_TIMER_CAUSE, []⟩ rp with
          | Except.ok msg =>
              ({ st with timer := none },
               [STEffect.sendByeMsg msg,
                STEffect.endedEvent "system" SESSION_TIMER_CAUSE])
          | Except.error _ => ({ st with timer := none }, [])

theorem setSessionRefreshTimer_interval (st : SessionTimerState) :
    (setSessionRefreshTimer st).interval = st.interval := by
  unfold setSessionRefreshTimer
  split <;> rfl

theorem setSessionRefreshTimer_localRefresher (st : SessionTimerState) :
    (setSessionRefreshTimer st).localRefresher = st.localRefresher := by
  unfold setSessionRefreshTimer
  split <;> rfl

theorem setSessionRefreshTimer_timer_local (st : SessionTimerState) (n : Nat)
    (h : st.localRefresher = true) (hi : st.interval = some n) :
    (setSessionRefreshTimer st).timer = some ⟨(n : ℚ) / 2, STAction.refresh⟩ := by
  unfold setSessionRefreshTimer
  simp [h, hi]

theorem setSessionRefreshTimer_timer_remote (st : SessionTimerState) (n : Nat)
    (h : st.localRefresher = false) (hi : st.interval = some n) :
    (setSessionRefreshTimer st).timer =
      some ⟨(n : ℚ) - max ((n : ℚ) / 3) 32, STAction.byeAndEnd⟩ := by
  unfold setSessionRefreshTimer
  simp [h, hi]

theorem fireSessionRefreshTimer_refresh (st : SessionTimerState)
    (rp : Nat → Option String) (q : ℚ)
    (h : st.timer = some ⟨q, STAction.refresh⟩) :
    fireSessionRefreshTimer st rp =
      ({ st with timer := none }, [STEffect.emitRefresh]) := by
  unfold fireSessionRefreshTimer
  rw [h]

theorem fireSessionRefreshTimer_bye (st : SessionTimerState)
    (rp : Nat → Option String) (q : ℚ)
    (h : st.timer = some ⟨q, STAction.byeAndEnd⟩) :
    fireSessionRefreshTimer st rp =
      ({ st with timer := none },
       [STEffect.sendByeMsg
          (TermMsg.bye ["Reason: SIP ;cause=408; text=\"Session Timer\""]),
        STEffect.endedEvent "system" "Session Timer"]) := by
  have hbye : sendByeModel ⟨some 408, some "Session Timer", []⟩ rp =
      Except.ok (TermMsg.bye ["Reason: SIP ;cause=408; text=\"Session Timer\""]) := by
    unfold sendByeModel
    simp [jsTruthyNum, jsStrOr]
    rfl
  simp [fireSessionRefreshTimer, h, SESSION_TIMER_CAUSE, hbye]

/-- C4: on a 2xx (or the request being answered 2xx) for INVITE/UPDATE:
absent Session-Expires disables refresh (interval cleared, no timer armed);
otherwise the interval is adopted and the refresher role follows the header
(request: `refresher=uas` or omission give local refresher; response: local
refresher iff `refresher=uac`); the armed timer fires at `interval / 2`
seconds emitting `refresh` when local is the refresher, and at
`interval - max(interval / 3, 32)` seconds sending a BYE whose Reason header
is `SIP ;cause=408; text="Session Timer"` and ending the session when the
remote side is the refresher. -/
theorem session_timer_C4 (st : SessionTimerState) (m : STMsg)
    (rp : Nat → Option String) :
    (m.session_expires = none →
      (processSessionTimerHeaders st m).interval = none ∧
      (processSessionTimerHeaders st m).timer = none) ∧
    (∀ se, m.session_expires = some se →
      (processSessionTimerHeaders st m).interval = some se.interval ∧
      (m.isRequest = true → se.refresher = some "uas" →
        (processSessionTimerHeaders st m).localRefresher = true) ∧
      (m.isRequest = true → se.refresher = none →
        (processSessionTimerHeaders st m).localRefresher = true) ∧
      (m.isRequest = false →
        ((processSessionTimerHeaders st m).localRefresher = true ↔
          se.refresher = some "uac")) ∧
      ((processSessionTimerHeaders st m).localRefresher = true →
        (processSessionTimerHeaders st m).timer =
          some ⟨(se.interval : ℚ) / 2, STAction.refresh⟩ ∧
        (fireSessionRefreshTimer (processSessionTimerHeaders st m) rp).2 =
          [STEffect.emitRefresh]) ∧
      ((processSessionTimerHeaders st m).localRefresher = false →
        (processSessionTimerHeaders st m).timer =
          some ⟨(se.interval : ℚ) - max ((se.interval : ℚ) / 3) 32,
            STAction.byeAndEnd⟩ ∧
        (fireSessionRefreshTimer (processSessionTimerHeaders st m) rp).2 =
          [STEffect.sendByeMsg
             (TermMsg.bye ["Reason: SIP ;cause=408; text=\"Session Timer\""]),
           STEffect.endedEvent "system" "Session Timer"])) := by
  constructor
  · intro h
    unfold processSessionTimerHeaders
    rw [h]
    exact ⟨rfl, rfl⟩
  · intro se hse
    have hp : processSessionTimerHeaders st m = setSessionRefreshTimer (stPrep st m se) := by
      unfold processSessionTimerHeaders
      rw [hse]
    have hiv : (stPrep st m se).interval = some se.interval := rfl
    have hlr : (stPrep st m se).localRefresher = stRefresherRole m.isRequest se.refresher := rfl
    refine ⟨?_, ?_, ?_, ?_, ?_, ?_⟩
    · rw [hp, setSessionRefreshTimer_interval, hiv]
    · intro hreq href
      rw [hp, setSessionRefreshTimer_localRefresher, hlr]
      simp [stRefresherRole, hreq, href]
    · intro hreq href
      rw [hp, setSessionRefreshTimer_localRefresher, hlr]
      simp [stRefresherRole, hreq, href]
    · intro hreq
      rw [hp, setSessionRefreshTimer_localRefresher, hlr]
      simp [stRefresherRole, hreq]
    · intro hloc
      rw [hp, setSessionRefreshTimer_localRefresher] at hloc
      have ht := setSessionRefreshTimer_timer_local (stPrep st m se) se.interval hloc hiv
      rw [hp]
      refine ⟨ht, ?_⟩
      rw [fireSessionRefreshTimer_refresh (setSessionRefreshTimer (stPrep st m se)) rp _ ht]
    · intro hloc
      rw [hp, setSessionRefreshTimer_localRefresher] at hloc
      have ht := setSessionRefreshTimer_timer_remote (stPrep st m se) se.interval hloc hiv
      rw [hp]
      refine ⟨ht, ?_⟩
      rw [fireSessionRefreshTimer_bye (setSessionRefreshTimer (stPrep st m se)) rp _ ht]

theorem session_timer_C4_witness :
    (processSessionTimerHeaders ⟨none, 90, true, none⟩
      ⟨false, none, some ⟨1800, some "uac"⟩⟩).interval = some 1800 ∧
    (processSessionTimerHeaders ⟨none, 90, true, none⟩
      ⟨false, none, some ⟨1800, some "uac"⟩⟩).timer =
      some ⟨(1800 : ℚ) / 2, STAction.refresh⟩ :=
  ⟨((session_timer_C4 ⟨none, 90, true, none⟩ ⟨false, none, some ⟨1800, some "uac"⟩⟩
      (fun _ => none)).2 ⟨1800, some "uac"⟩ rfl).1,
   (((session_timer_C4 ⟨none, 90, true, none⟩ ⟨false, none, some ⟨1800, some "uac"⟩⟩
      (fun _ => none)).2 ⟨1800, some "uac"⟩ rfl).2.2.2.2.1 (by decide)).1⟩

/-- Dialog roles. -/
inductive Role where
  | UAC | UAS
  deriving DecidableEq, Repr

/-- Dialog states (`JsSIP.Dialog.C.STATUS_EARLY` / `STATUS_CONFIRMED`). -/
inductive DState where
  | early | confirmedD
  deriving DecidableEq, Repr

/-- `DialogId` (call-id, local tag, remote tag). -/
structure DialogId where
  call_id : String
  local_tag : String
  remote_tag : String
  deriving DecidableEq, Repr

/-- `DialogId.prototype.toString`. -/
def DialogId.str (id : DialogId) : String :=
  id.call_id ++ id.local_tag ++ id.remote_tag

/-- The incoming-message fields read by the Dialog constructor and the
Session / Refer dialog management (`call_id`, tags, CSeq, Contact URI,
Record-Route set; `isResponse` distinguishes IncomingResponse from
IncomingRequest). -/
structure Msg where
  isResponse : Bool
  status_code : Nat
  method : Method
  call_id : String
  from_tag : String
  to_tag : String
  cseq : Nat
  contact : Option String
  record_route : List String
  deriving DecidableEq, Repr

/-- A Dialog as far as the verified claims read it (`local_uri`/`remote_uri`
and the transaction cache are never read by these claims and are not
modelled; the RFC 4028 `session_timer` sub-state is modelled separately as
`SessionTimerState`). -/
structure Dialog where
  id : DialogId
  state : DState
  local_seqnum : Option Nat
  remote_seqnum : Option Nat
  remote_target : String
  route_set : List String
  deriving DecidableEq, Repr

/-- The Dialog constructor (RFC 3261 12.1): fails without a Contact header
(the JS constructor `return false`s, leaving an object with no `id`, which
every caller tests); a response's status code overrides the requested state;
UAS takes (to-tag, from-tag) as (local, remote), UAC the reverse, and the
UAC route set is reversed. -/
def mkDialog (m : Msg) (role : Role) (state : Option DState) : Option Dialog :=
  match m.contact with
  | none => none
  | some contactUri =>
      let st :=
        if m.isResponse then
          (if m.status_code < 200 then DState.early else DState.confirmedD)
        else state.getD DState.confirmedD
      match role with
      | Role.UAS =>
          some { id := ⟨m.call_id, m.to_tag, m.from_tag⟩, state := st
                 local_seqnum := none, remote_seqnum := some m.cseq
                 remote_target := contactUri, route_set := m.record_route }
      | Role.UAC =>
          some { id := ⟨m.call_id, m.from_tag, m.to_tag⟩, state := st
                 local_seqnum := some m.cseq, remote_seqnum := none
                 remote_target := contactUri, route_set := m.record_route.reverse }

/-- An in-dialog outgoing request as built by `Dialog.prototype.createRequest`. -/
structure OutReq where
  method : Method
  ruri : String
  cseq : Nat
  call_id : String
  from_tag : String
  to_tag : String
  extraHeaders : List String
  deriving DecidableEq, Repr

/-- `Dialog.prototype.createRequest` (RFC 3261 12.2.1.1): lazily seeds
`local_seqnum` with a random number below 10000 (`rand % 10000` stands for
`Math.floor(Math.random() * 10000)`, and the JS falsiness of `0` is kept);
CANCEL and ACK reuse the CSeq, other methods increment it; the request is
addressed to `remote_target` within the dialog's identifiers.  (The RFC 4028
Session-Expires emission concerns only INVITE/UPDATE, which no verified
claim builds here; it is modelled separately with `SessionTimerState`.) -/
def dialogCreateRequest (d : Dialog) (method : Method)
    (extraHeaders : List String) (rand : Nat) : Dialog × OutReq :=
  let seq0 := if jsTruthyNum d.local_seqnum then d.local_seqnum.getD 0
    else rand % 10000
  let cseq := if method = Method.CANCEL ∨ method = Method.ACK then seq0
    else seq0 + 1
  ({ d with local_seqnum := some cseq },
   { method := method, ruri := d.remote_target, cseq := cseq,
     call_id := d.id.call_id, from_tag := d.id.local_tag,
     to_tag := d.id.remote_tag, extraHeaders := extraHeaders })

/-- Subscription states of a REFER subscription (strings in the JS). -/
inductive SubState where
  | pending | active | terminated
  deriving DecidableEq, Repr

/-- The owning subscription's fields read by `Notify.prototype.send`. -/
structure NotifySession where
  subscription_state : SubState
  dialog : Option Dialog
  contact : String
  deriving DecidableEq, Repr

/-- Options bag of `Notify.prototype.send`. -/
structure NotifySendOptions where
  content_type : Option String
  body : Option String
  extraHeaders : List String
  deriving DecidableEq, Repr

/-- Observable effects of `Notify.prototype.send`. -/
inductive NotifyEffect where
  | emittedNotify (originator : String)
  | sentRequest
  deriving DecidableEq, Repr

/-- Result of a successful `Notify.prototype.send`: the built NOTIFY, the
headers installed with `setHeader`, the body, and the emitted events in
order. -/
structure NotifyResult where
  request : OutReq
  headers : List (String × String)
  body : Option String
  events : List NotifyEffect
  deriving DecidableEq, Repr

/-- `Notify.prototype.send`: refuses with InvalidStateError unless the
owning subscription is `active` or `pending` (before anything is built or
emitted); otherwise builds a NOTIFY on the subscription's dialog, sets the
Contact/Event/Subscription-State (and optional Content-Type) headers, emits
`notify` with originator `local` on the session, and sends.  A missing
dialog would crash the JS (`this.session.dialog.createRequest`), modelled as
a TypeError. -/
def notifySend (sess : NotifySession) (event : String) (state : String)
    (opts : NotifySendOptions) (rand : Nat) : Except JsError NotifyResult :=
  if sess.subscription_state ≠ SubState.active ∧
      sess.subscription_state ≠ SubState.pending then
    Except.error JsError.invalidState
  else
    match sess.dialog with
    | none => Except.error JsError.typeError
    | some d =>
        let req := (dialogCreateRequest d Method.NOTIFY opts.extraHeaders rand).2
        Except.ok
          { request := req
            headers := [("contact", sess.contact), ("event", event),
              ("subscription-state", state)] ++
              (match opts.content_type with
               | some ct => [("content-type", ct)]
               | none => [])
            body := opts.body
            events := [NotifyEffect.emittedNotify "local",
              NotifyEffect.sentRequest] }

/-- C9: `Notify.send` throws InvalidStateError whenever the owning
subscription is neither `active` nor `pending`, without building a request
or emitting anything; for `active` or `pending` subscriptions it builds the
NOTIFY on the subscription's dialog (same call-id and tags, method NOTIFY)
and emits `notify` with originator `local` before sending. -/
theorem notify_send_C9 (sess : NotifySession) (event state : String)
    (opts : NotifySendOptions) (rand : Nat) :
    (sess.subscription_state ≠ SubState.active ∧
        sess.subscription_state ≠ SubState.pending →
      notifySend sess event state opts rand = Except.error JsError.invalidState) ∧
    (∀ d, sess.dialog = some d →
      (sess.subscription_state = SubState.active ∨
        sess.subscription_state = SubState.pending) →
      ∃ r, notifySend sess event state opts rand = Except.ok r ∧
        r.request.method = Method.NOTIFY ∧
        r.request.call_id = d.id.call_id ∧
        r.request.from_tag = d.id.local_tag ∧
        r.request.to_tag = d.id.remote_tag ∧
        r.request.ruri = d.remote_target ∧
        r.events = [NotifyEffect.emittedNotify "local",
          NotifyEffect.sentRequest]) := by
  constructor
  · intro h
    unfold notifySend
    simp [h.1, h.2]
  · intro d hd hok
    have hguard : ¬ (sess.subscription_state ≠ SubState.active ∧
        sess.subscription_state ≠ SubState.pending) := by
      rcases hok with h | h <;> simp [h]
    have heq : notifySend sess event state opts rand = Except.ok
        { request := (dialogCreateRequest d Method.NOTIFY opts.extraHeaders rand).2
          headers := [("contact", sess.contact), ("event", event),
            ("subscription-state", state)] ++
            (match opts.content_type with
             | some ct => [("content-type", ct)]
             | none => [])
          body := opts.body
          events := [NotifyEffect.emittedNotify "local",
            NotifyEffect.sentRequest] } := by
      unfold notifySend
      rw [if_neg hguard, hd]
    exact ⟨_, heq, rfl, rfl, rfl, rfl, rfl, rfl⟩

theorem notify_send_C9_witness :
    notifySend ⟨SubState.terminated, none, "c"⟩ "refer" "terminated"
      ⟨none, none, []⟩ 0 = Except.error JsError.invalidState :=
  (notify_send_C9 ⟨SubState.terminated, none, "c"⟩ "refer" "terminated"
    ⟨none, none, []⟩ 0).1 (by exact ⟨by decide, by decide⟩)

/-- Modelled from the spec: `JsSIP.C.INVALID_TARGET_URI` (the placeholder
URI parsed when normalization fails) is not under src/; its exact value is
irrelevant to the claims. -/
def INVALID_TARGET_URI : String := "sip:invalid@invalid"

/-- The Message (one-shot MESSAGE) fields written by `Message.prototype.send`. -/
structure MessageState where
  direction : Option String
  closed : Bool
  inApplicants : Bool
  requestRuri : Option String
  deriving DecidableEq, Repr

/-- Observable events of `Message.prototype.send`, in emission order. -/
inductive MsgEv where
  | uaNewMessage (originator : String)
  | msgFailed (originator : String) (cause : String)
  | requestSent
  deriving DecidableEq, Repr

/-- `Message.prototype.send`: throws TypeError when `target` or `body` is
undefined; normalization failure of the target is caught
(`normalized = none` models the `catch` branch) and replaced by
`INVALID_TARGET_URI` with `invalidTarget` latched; the MESSAGE request is
built and the UA-level `newMessage` event emitted either way; then either
`failed` (originator local, cause INVALID_TARGET, the spec's cause name) is
emitted without sending, or the request is handed to the RequestSender. -/
def messageSend (st : MessageState) (target body : Option String)
    (normalized : Option String) :
    Except JsError (MessageState × List MsgEv) :=
  if target = none ∨ body = none then Except.error JsError.typeError
  else
    let tgt := match normalized with
      | some u => u
      | none => INVALID_TARGET_URI
    let invalidTarget := normalized = none
    let st1 := { st with
      direction := some "outgoing"
      closed := false
      inApplicants := true
      requestRuri := some tgt }
    if invalidTarget then
      Except.ok (st1, [MsgEv.uaNewMessage "local",
        MsgEv.msgFailed "local" "INVALID_TARGET"])
    else
      Except.ok (st1, [MsgEv.uaNewMessage "local", MsgEv.requestSent])

/-- C10: when the target fails URI normalization, `Message.send` does not
throw and never sends the MESSAGE: it returns normally having emitted the
UA-level `newMessage` event with originator `local` followed by `failed`
with originator `local` and cause INVALID_TARGET, and nothing else (in
particular no `requestSent`). -/
theorem message_send_invalid_target_C10 (st : MessageState) (t b : String) :
    messageSend st (some t) (some b) none =
      Except.ok ({ st with
        direction := some "outgoing"
        closed := false
        inApplicants := true
        requestRuri := some INVALID_TARGET_URI },
        [MsgEv.uaNewMessage "local", MsgEv.msgFailed "local" "INVALID_TARGET"]) := by
  unfold messageSend
  simp

/-- Modelled from the spec: the `RTCSession/DTMF.js` constants (`DTMF.C`)
are not under src/.  Spec §4.2 fixes the defaults (duration 100 ms,
inter-tone gap 500 ms); the MIN/MAX bounds are carried as fields so nothing
is assumed about their values. -/
structure DtmfConsts where
  MIN_DURATION : Int
  MAX_DURATION : Int
  DEFAULT_DURATION : Int
  MIN_INTER_TONE_GAP : Int
  DEFAULT_INTER_TONE_GAP : Int
  deriving DecidableEq, Repr

/-- The character class of the tone-validation regex
`/^[0-9A-D#*]+$/i` in `RTCSession.prototype.sendDTMF` (the `i` flag admits
the lowercase letters; the comma is NOT in the class). -/
def isDtmfToneChar (c : Char) : Bool :=
  (decide ('0' ≤ c) && decide (c ≤ '9')) ||
  (decide ('A' ≤ c) && decide (c ≤ 'D')) ||
  (decide ('a' ≤ c) && decide (c ≤ 'd')) ||
  decide (c = '#') || decide (c = '*')

/-- `tones.toString().match(/^[0-9A-D#*]+$/i)`: at least one character, all
from the class. -/
def validDtmfTones (s : String) : Bool :=
  decide (s.length ≠ 0) && s.toList.all isDtmfToneChar

/-- The duration normalization of `sendDTMF`: `options.duration || null`
(so `0` falls back to the default), clamped below to MIN_DURATION and above
to MAX_DURATION, otherwise `Math.abs`.  (`JsSIP.Utils.isDecimal` is not
under src/; every modelled input is a number, so the isDecimal TypeError
branch is vacuous here.) -/
def computeDuration (con : DtmfConsts) (d : Option Int) : Int :=
  match d with
  | none => con.DEFAULT_DURATION
  | some v =>
      if v = 0 then con.DEFAULT_DURATION
      else if v < con.MIN_DURATION then con.MIN_DURATION
      else if v > con.MAX_DURATION then con.MAX_DURATION
      else |v|

/-- The interToneGap normalization of `sendDTMF`: default 500, clamped below
to MIN_INTER_TONE_GAP, otherwise `Math.abs`. -/
def computeInterToneGap (con : DtmfConsts) (g : Option Int) : Int :=
  match g with
  | none => con.DEFAULT_INTER_TONE_GAP
  | some v =>
      if v = 0 then con.DEFAULT_INTER_TONE_GAP
      else if v < con.MIN_INTER_TONE_GAP then con.MIN_INTER_TONE_GAP
      else |v|

/-- The argument-validation prefix of `RTCSession.prototype.sendDTMF`
(undefined tones → TypeError; wrong session status → InvalidStateError;
tones failing the regex → TypeError), returning the normalized tone string,
duration and inter-tone gap. -/
def sendDTMFCheck (con : DtmfConsts) (status : SessionStatus)
    (tones : Option String) (duration interToneGap : Option Int) :
    Except JsError (String × Int × Int) :=
  match tones with
  | none => Except.error JsError.typeError
  | some t =>
      if status ≠ SessionStatus.confirmed ∧
          status ≠ SessionStatus.waitingForAck then
        Except.error JsError.invalidState
      else if validDtmfTones t = false then Except.error JsError.typeError
      else Except.ok (t, computeDuration con duration,
        computeInterToneGap con interToneGap)

/-- One iteration of the inner `sendDTMF` loop: `none` when sending stops
(terminated session, no queue, or past the end); otherwise whether an INFO
is sent for this tone (`false` exactly for `,`) and the timeout until the
next iteration (2000 ms for `,`, else duration + interToneGap). -/
def dtmfStep (status : SessionStatus) (tones : Option String) (position : Nat)
    (duration interToneGap : Int) : Option (Bool × Int) :=
  match tones with
  | none => none
  | some ts =>
      if status = SessionStatus.terminated ∨ ts.length = 0 ∨
          ts.length ≤ position then none
      else
        let tone := ts.toList.getD position ' '
        if tone = ',' then some (false, 2000)
        else some (true, duration + interToneGap)

/-- C8 (code bug): `sendDTMF` called on a Confirmed session with the tone
string `","` throws TypeError — the validation regex `/^[0-9A-D#*]+$/i`
does not admit the comma — although the send loop of the very same function
has a dedicated branch that, were a `,` ever queued, would wait exactly
2000 ms without sending an INFO, which is what the claim (and that branch)
describe.  The constants are instantiated arbitrarily since the validation
fails before they are consulted. -/
theorem sendDTMF_comma_C8 :
    sendDTMFCheck ⟨70, 6000, 100, 50, 500⟩ SessionStatus.confirmed
      (some ",") none none = Except.error JsError.typeError ∧
    dtmfStep SessionStatus.confirmed (some ",") 0 100 500 =
      some (false, 2000) :=
  ⟨rfl, rfl⟩

/-- `RTCSession.prototype.calcDialogId`. -/
def calcDialogId (m : Msg) (role : Role) : String :=
  match role with
  | Role.UAS => m.call_id ++ m.to_tag ++ m.from_tag
  | Role.UAC => m.call_id ++ m.from_tag ++ m.to_tag

/-- The Session fields used by the Confirmed 2xx branch of
`receiveInviteResponse` and by `acceptAndTerminate`: status, the confirmed
dialog, the early-dialog map (keyed by dialog-id string) and the `to_tag`
set when a confirmed dialog is created. -/
structure ForkSt where
  status : SessionStatus
  dialog : Option Dialog
  earlyDialogs : List (String × Dialog)
  to_tag : Option String
  deriving DecidableEq, Repr

/-- Session events observable in the fork handling. -/
inductive SessEv where
  | startedEv (originator : String)
  | failedEv (originator : String) (cause : String)
  deriving DecidableEq, Repr

/-- `RTCSession.prototype.close` as far as the fork handling observes it:
terminate and drop every dialog, set Terminated (no-op when already
Terminated). -/
def closeSession (s : ForkSt) : ForkSt :=
  if s.status = SessionStatus.terminated then s
  else { s with
    status := SessionStatus.terminated
    dialog := none
    earlyDialogs := [] }

/-- Replace the dialog stored under key `k`. -/
def updateEntry (l : List (String × Dialog)) (k : String) (v : Dialog) :
    List (String × Dialog) :=
  l.map (fun p => if p.1 = k then (k, v) else p)

/-- `RTCSession.prototype.createDialog`: early dialogs are cached by id;
constructor failure (no Contact) fires `failed('remote', INTERNAL_ERROR)`,
which closes the session.  The confirmed branch promotes a matching early
dialog (`Dialog.prototype.update`: state Confirmed, UAC route set re-read
from the message) or creates a fresh confirmed dialog and records `to_tag`. -/
def createDialogS (s : ForkSt) (m : Msg) (role : Role) (early : Bool) :
    ForkSt × Bool × List SessEv :=
  let id := calcDialogId m role
  if early then
    match s.earlyDialogs.lookup id with
    | some _ => (s, true, [])
    | none =>
        match mkDialog m role (some DState.early) with
        | some d => ({ s with earlyDialogs := s.earlyDialogs ++ [(id, d)] }, true, [])
        | none => (closeSession s, false, [SessEv.failedEv "remote" "INTERNAL_ERROR"])
  else
    match s.earlyDialogs.lookup id with
    | some ed =>
        let ed' := { ed with
          state := DState.confirmedD
          route_set := if role = Role.UAC then m.record_route.reverse else ed.route_set }
        ({ s with
            dialog := some ed'
            earlyDialogs := s.earlyDialogs.filter (fun p => p.1 != id) },
          true, [])
    | none =>
        match mkDialog m role none with
        | some d => ({ s with dialog := some d, to_tag := some m.to_tag }, true, [])
        | none => (closeSession s, false, [SessEv.failedEv "remote" "INTERNAL_ERROR"])

/-- The Reason extra header pushed by `sendBye` when a status code is given
(no header otherwise); `acceptAndTerminate`'s internal call sites pass no
status code or 400, so the TypeError validation branch of `sendBye` is
unreachable from here. -/
def byeReasonHeaders (status_code : Option Nat) (reason_phrase : Option String)
    (rp : Nat → Option String) : List String :=
  if jsTruthyNum status_code then
    ["Reason: SIP ;cause=" ++ toString (status_code.getD 0) ++ "; text=\"" ++
      jsStrOr reason_phrase (jsStrOr (status_code.bind rp) "") ++ "\""]
  else []

/-- `RTCSession.prototype.acceptAndTerminate`: pick the dialog matching the
response's dialog-id (the confirmed dialog, an existing early dialog, a
freshly confirmed dialog when none exists yet, or a freshly created early
dialog), then send ACK and BYE on it.  On dialog-creation failure nothing is
sent and the session has been closed by `failed`. -/
def acceptAndTerminate (s : ForkSt) (r : Msg) (status_code : Option Nat)
    (reason_phrase : Option String) (rp : Nat → Option String) (rand : Nat) :
    ForkSt × List OutReq × List SessEv :=
  let did := calcDialogId r Role.UAC
  let byeHeaders := byeReasonHeaders status_code reason_phrase rp
  match s.dialog with
  | none =>
      let res := createDialogS s r Role.UAC false
      match res.1.dialog, res.2.1 with
      | some dch, true =>
          let ackPair := dialogCreateRequest dch Method.ACK [] rand
          let byePair := dialogCreateRequest ackPair.1 Method.BYE byeHeaders rand
          ({ res.1 with dialog := some byePair.1 },
            [ackPair.2, byePair.2], res.2.2)
      | _, _ => (res.1, [], res.2.2)
  | some dconf =>
      if did = dconf.id.str then
        let ackPair := dialogCreateRequest dconf Method.ACK [] rand
        let byePair := dialogCreateRequest ackPair.1 Method.BYE byeHeaders rand
        ({ s with dialog := some byePair.1 }, [ackPair.2, byePair.2], [])
      else
        match s.earlyDialogs.lookup did with
        | some ed =>
            let ackPair := dialogCreateRequest ed Method.ACK [] rand
            let byePair := dialogCreateRequest ackPair.1 Method.BYE byeHeaders rand
            ({ s with earlyDialogs := updateEntry s.earlyDialogs did byePair.1 },
              [ackPair.2, byePair.2], [])
        | none =>
            let res := createDialogS s r Role.UAC true
            match res.2.1, res.1.earlyDialogs.lookup did with
            | true, some ed =>
                let ackPair := dialogCreateRequest ed Method.ACK [] rand
                let byePair := dialogCreateRequest ackPair.1 Method.BYE byeHeaders rand
                ({ res.1 with
                    earlyDialogs := updateEntry res.1.earlyDialogs did byePair.1 },
                  [ackPair.2, byePair.2], res.2.2)
            | _, _ => (res.1, [], res.2.2)

/-- The `STATUS_CONFIRMED` arm of the 2xx case of
`RTCSession.prototype.receiveInviteResponse`: a matching dialog-id is a
retransmission (resend the ACK on the confirmed dialog), anything else is a
fork handed to `acceptAndTerminate`.  Note neither path emits `started`. -/
def recvInvite2xxConfirmed (s : ForkSt) (r : Msg) (rand : Nat)
    (rp : Nat → Option String) : ForkSt × List OutReq × List SessEv :=
  match s.dialog with
  | none => (s, [], [])
  | some d =>
      if calcDialogId r Role.UAC = d.id.str then
        let ackPair := dialogCreateRequest d Method.ACK [] rand
        ({ s with dialog := some ackPair.1 }, [ackPair.2], [])
      else
        acceptAndTerminate s r none none rp rand

/-- C3 counterexample: a Session in Confirmed (confirmed dialog id `cltrt`)
holds an early dialog for id `cltrt2` whose remote target is `sip:c1` (from
an earlier 1xx).  A forked 2xx with dialog-id `cltrt2` and Contact `sip:c2`
arrives.  The claim as stated says the ACK and BYE go out on a dialog built
from that response — whose remote target, hence request URI, would be
`sip:c2` — but the code reuses the existing early dialog and sends both to
`sip:c1`. -/
theorem session_fork_C3_counterexample :
    ((recvInvite2xxConfirmed
        ⟨SessionStatus.confirmed,
          some ⟨⟨"c", "lt", "rt"⟩, DState.confirmedD, some 10, none, "sip:a", []⟩,
          [("cltrt2", ⟨⟨"c", "lt", "rt2"⟩, DState.early, some 20, none, "sip:c1", []⟩)],
          none⟩
        ⟨true, 200, Method.INVITE, "c", "lt", "rt2", 1, some "sip:c2", []⟩
        0 (fun _ => none)).2.1.map (fun q => q.ruri) = ["sip:c1", "sip:c1"]) ∧
    ¬ ((recvInvite2xxConfirmed
        ⟨SessionStatus.confirmed,
          some ⟨⟨"c", "lt", "rt"⟩, DState.confirmedD, some 10, none, "sip:a", []⟩,
          [("cltrt2", ⟨⟨"c", "lt", "rt2"⟩, DState.early, some 20, none, "sip:c1", []⟩)],
          none⟩
        ⟨true, 200, Method.INVITE, "c", "lt", "rt2", 1, some "sip:c2", []⟩
        0 (fun _ => none)).2.1.map (fun q => q.ruri) = ["sip:c2", "sip:c2"]) := by
  exact ⟨rfl, by decide⟩


theorem lookup_append_of_none (l1 l2 : List (String × Dialog)) (k : String)
    (h : List.lookup k l1 = none) :
    List.lookup k (l1 ++ l2) = List.lookup k l2 := by
  induction l1 with
  | nil => rfl
  | cons p l ih =>
      obtain ⟨a, b⟩ := p
      simp only [List.cons_append, List.lookup] at h ⊢
      cases hka : (k == a) with
      | true => simp [hka] at h
      | false =>
          simp only [hka] at h ⊢
          exact ih h

/-- C3 (amended): for a Session in Confirmed receiving a 2xx response to its
initial INVITE: a matching dialog-id yields exactly one additional ACK on
the confirmed dialog, no `started` re-emission, and the session stays at the
same status with the same dialog-id; a differing dialog-id (fork) yields an
ACK followed by a BYE on the dialog matching that response's dialog-id —
the existing early dialog when one exists, else a fresh early dialog built
from the response (requiring its Contact) — and the confirmed session and
its dialog are left unchanged; when no early dialog exists and the forked
response carries no Contact, dialog creation fails, nothing is sent and the
session is closed with `failed('remote', INTERNAL_ERROR)`. -/
theorem session_fork_C3 (s : ForkSt) (r : Msg) (rand : Nat)
    (rp : Nat → Option String) (d : Dialog) (hd : s.dialog = some d)
    (hresp : r.isResponse = true) (h2xx : ¬ r.status_code < 200) :
    (calcDialogId r Role.UAC = d.id.str →
      ∃ ack, (recvInvite2xxConfirmed s r rand rp).2.1 = [ack] ∧
        ack.method = Method.ACK ∧
        ack.ruri = d.remote_target ∧
        ack.call_id = d.id.call_id ∧
        ack.from_tag = d.id.local_tag ∧
        ack.to_tag = d.id.remote_tag ∧
        (recvInvite2xxConfirmed s r rand rp).2.2 = [] ∧
        (recvInvite2xxConfirmed s r rand rp).1.status = s.status ∧
        ∃ d', (recvInvite2xxConfirmed s r rand rp).1.dialog = some d' ∧
          d'.id = d.id) ∧
    (calcDialogId r Role.UAC ≠ d.id.str →
      (∀ ed, List.lookup (calcDialogId r Role.UAC) s.earlyDialogs = some ed →
        ∃ ack bye, (recvInvite2xxConfirmed s r rand rp).2.1 = [ack, bye] ∧
          ack.method = Method.ACK ∧ bye.method = Method.BYE ∧
          ack.ruri = ed.remote_target ∧ bye.ruri = ed.remote_target ∧
          ack.call_id = ed.id.call_id ∧ ack.from_tag = ed.id.local_tag ∧
          ack.to_tag = ed.id.remote_tag ∧
          (recvInvite2xxConfirmed s r rand rp).2.2 = [] ∧
          (recvInvite2xxConfirmed s r rand rp).1.status = s.status ∧
          (recvInvite2xxConfirmed s r rand rp).1.dialog = s.dialog) ∧
      (List.lookup (calcDialogId r Role.UAC) s.earlyDialogs = none →
        ∀ c, r.contact = some c →
          ∃ ack bye, (recvInvite2xxConfirmed s r rand rp).2.1 = [ack, bye] ∧
            ack.method = Method.ACK ∧ bye.method = Method.BYE ∧
            ack.ruri = c ∧ bye.ruri = c ∧
            ack.call_id = r.call_id ∧ ack.from_tag = r.from_tag ∧
            ack.to_tag = r.to_tag ∧
            (recvInvite2xxConfirmed s r rand rp).2.2 = [] ∧
            (recvInvite2xxConfirmed s r rand rp).1.status = s.status ∧
            (recvInvite2xxConfirmed s r rand rp).1.dialog = s.dialog) ∧
      (List.lookup (calcDialogId r Role.UAC) s.earlyDialogs = none →
        r.contact = none →
        (recvInvite2xxConfirmed s r rand rp).2.1 = [] ∧
        (recvInvite2xxConfirmed s r rand rp).2.2 =
          [SessEv.failedEv "remote" "INTERNAL_ERROR"] ∧
        (recvInvite2xxConfirmed s r rand rp).1.status =
          SessionStatus.terminated)) := by
  constructor
  · intro hmatch
    unfold recvInvite2xxConfirmed
    simp only [hd]
    rw [if_pos hmatch]
    exact ⟨_, rfl, rfl, rfl, rfl, rfl, rfl, rfl, rfl, _, rfl, rfl⟩
  · intro hne
    refine ⟨?_, ?_, ?_⟩
    · intro ed hlook
      unfold recvInvite2xxConfirmed acceptAndTerminate
      simp only [hd]
      rw [if_neg hne, if_neg hne]
      simp only [hlook]
      refine ⟨(dialogCreateRequest ed Method.ACK [] rand).2,
        (dialogCreateRequest (dialogCreateRequest ed Method.ACK [] rand).1
          Method.BYE (byeReasonHeaders none none rp) rand).2, ?_⟩
      repeat' apply And.intro
      all_goals first | rfl | trivial
    · intro hlook c hc
      unfold recvInvite2xxConfirmed acceptAndTerminate
      simp only [hd]
      rw [if_neg hne, if_neg hne]
      simp only [hlook]
      have hcre : createDialogS s r Role.UAC true =
          ({ s with earlyDialogs := s.earlyDialogs ++
              [(calcDialogId r Role.UAC,
                Dialog.mk ⟨r.call_id, r.from_tag, r.to_tag⟩ DState.confirmedD
                  (some r.cseq) none c r.record_route.reverse)] },
            true, []) := by
        simp [createDialogS, mkDialog, hlook, hc, hresp, h2xx]
      simp only [hcre]
      have hlook2 : List.lookup (calcDialogId r Role.UAC)
          (s.earlyDialogs ++
            [(calcDialogId r Role.UAC,
              Dialog.mk ⟨r.call_id, r.from_tag, r.to_tag⟩ DState.confirmedD
                (some r.cseq) none c r.record_route.reverse)]) =
          some (Dialog.mk ⟨r.call_id, r.from_tag, r.to_tag⟩ DState.confirmedD
            (some r.cseq) none c r.record_route.reverse) := by
        rw [lookup_append_of_none _ _ _ hlook]
        simp [List.lookup]
      simp only [hlook2]
      refine ⟨(dialogCreateRequest
          (Dialog.mk ⟨r.call_id, r.from_tag, r.to_tag⟩ DState.confirmedD
            (some r.cseq) none c r.record_route.reverse) Method.ACK [] rand).2,
        (dialogCreateRequest
          (dialogCreateRequest
            (Dialog.mk ⟨r.call_id, r.from_tag, r.to_tag⟩ DState.confirmedD
              (some r.cseq) none c r.record_route.reverse) Method.ACK [] rand).1
          Method.BYE (byeReasonHeaders none none rp) rand).2, ?_⟩
      repeat' apply And.intro
      all_goals first | rfl | trivial
    · intro hlook hc
      unfold recvInvite2xxConfirmed acceptAndTerminate
      simp only [hd]
      rw [if_neg hne, if_neg hne]
      simp only [hlook]
      have hcre : createDialogS s r Role.UAC true =
          (closeSession s, false, [SessEv.failedEv "remote" "INTERNAL_ERROR"]) := by
        simp [createDialogS, mkDialog, hlook, hc]
      simp only [hcre]
      refine ⟨?_, ?_, ?_⟩
      · first | rfl | trivial
      · first | rfl | trivial
      · unfold closeSession
        by_cases hterm : s.status = SessionStatus.terminated
        · rw [if_pos hterm]
          exact hterm
        · rw [if_neg hterm]

theorem session_fork_C3_witness :
    ∃ ack, (recvInvite2xxConfirmed
        ⟨SessionStatus.confirmed,
          some ⟨⟨"c", "lt", "rt"⟩, DState.confirmedD, some 10, none, "sip:a", []⟩,
          [], none⟩
        ⟨true, 200, Method.INVITE, "c", "lt", "rt", 1, some "sip:c2", []⟩
        0 (fun _ => none)).2.1 = [ack] ∧ ack.method = Method.ACK := by
  obtain ⟨ack, h1, h2, _⟩ := (session_fork_C3
    ⟨SessionStatus.confirmed,
      some ⟨⟨"c", "lt", "rt"⟩, DState.confirmedD, some 10, none, "sip:a", []⟩,
      [], none⟩
    ⟨true, 200, Method.INVITE, "c", "lt", "rt", 1, some "sip:c2", []⟩
    0 (fun _ => none) _ rfl rfl (by decide)).1 (by decide)
  exact ⟨ack, h1, h2⟩

/-- Direction of a Refer / Message entity. -/
inductive Direction where
  | incoming | outgoing
  deriving DecidableEq, Repr

/-- `DEFAULT_EXPIRES = 3 * 60 * 1000` ms in the notify-capable Refer module. -/
def DEFAULT_EXPIRES : Int := 3 * 60 * 1000

/-- Modelled from the spec: the `JsSIP.Timers` module is not under src/.
Spec §6: Timer F derived per RFC 3261, i.e. 64 × T1 (ms). -/
def TIMER_F : Nat := 64 * T1

/-- Modelled from the spec: the `JsSIP.Timers` module is not under src/.
Spec §6: T4 = 5 s; JsSIP timer constants are in milliseconds.  The source
adds it to a seconds value verbatim (`(stateHeader.expires + T4) * 1000`),
which is kept as-is. -/
def T4ms : Int := 5000

/-- The Refer (notify-capable, out-of-dialog) object state. -/
structure ReferSt where
  direction : Option Direction
  closed : Bool
  subscription_state : SubState
  subscription_expires : Option Int
  expire_timer : Option Int
  notify_timer : Option Nat
  last_notify_body : Option String
  dialog : Option Dialog
  remote_tag : Option String
  contact : String
  accepted : Bool
  notifyListeners : Nat
  deriving DecidableEq, Repr

/-- Observable effects of the Refer operations, in order. -/
inductive ReferEffect where
  | reply (code : Nat)
  | sentNotify (stateHeader : String) (body : String)
  | requestSent
  | emittedAccepted
  | emittedFailed (originator : String) (cause : String)
  | emittedFailedStatus (originator : String) (status_code : Nat)
  | emittedNotifyEv (originator : String) (sessionEvent : String) (finalNotify : Bool)
  | emittedFinalNotify
  | dialogTerminated
  deriving DecidableEq, Repr

/-- Options bag of `Refer.prototype.notify` (incoming refers).
`finalNotify = none` models an undefined flag. -/
structure ReferNotifyOptions where
  status_code : Option Nat
  reason_phrase : Option String
  body : Option String
  finalNotify : Option Bool
  terminateReason : Option String
  deriving DecidableEq, Repr

/-- `Refer.prototype.notify`: TypeError for outgoing refers or a body
without `finalNotify`; ignored unless the subscription is `active`;
otherwise builds the Subscription-State header
(`terminated;reason=...` for a final notify, else
`active;expires=<rounded remaining seconds>`), caches the body in
`last_notify_body`, sends the NOTIFY via `JsSIP.Notify` on the dialog (a
missing dialog would crash there, modelled as TypeError) and then installs
the new subscription state.  (`rp` is the missing `REASON_PHRASE` table;
the Notify-level `notify` event is covered by `notifySend`/C9 and the
asynchronous on-failed teardown is out of scope.) -/
def referNotify (st : ReferSt) (opts : ReferNotifyOptions) (now : Int)
    (rp : Nat → Option String) : Except JsError (ReferSt × List ReferEffect) :=
  if st.direction ≠ some Direction.incoming then Except.error JsError.typeError
  else if opts.body ≠ none ∧ opts.finalNotify = none then
    Except.error JsError.typeError
  else if st.subscription_state ≠ SubState.active then Except.ok (st, [])
  else
    let status_code := if jsTruthyNum opts.status_code then opts.status_code.getD 0
      else 100
    let reason_phrase := jsStrOr opts.reason_phrase (jsStrOr (rp status_code) "")
    let finalNotify := (opts.finalNotify.getD false) || decide (200 ≤ status_code)
    let pair :=
      if finalNotify then
        (SubState.terminated,
          "terminated;reason=" ++ jsStrOr opts.terminateReason "noresource")
      else
        (SubState.active,
          "active;expires=" ++
            toString (((st.subscription_expires.getD 0) - now + 500).fdiv 1000))
    let body := jsStrOr opts.body
      ("SIP/2.0 " ++ toString status_code ++ " " ++ reason_phrase ++ "\r\n")
    match st.dialog with
    | none => Except.error JsError.typeError
    | some _ =>
        Except.ok ({ st with
            subscription_state := pair.1
            last_notify_body := some body },
          [ReferEffect.sentNotify pair.2 body])

/-- `Refer.prototype.subscriptionExpired`: a no-op once terminated, else a
final NOTIFY with reason `timeout`; the refer is deliberately not closed so
that a re-SUBSCRIBE can revive it. -/
def subscriptionExpiredR (st : ReferSt) (now : Int) (rp : Nat → Option String) :
    Except JsError (ReferSt × List ReferEffect) :=
  if st.subscription_state = SubState.terminated then Except.ok (st, [])
  else
    match referNotify st ⟨none, none, st.last_notify_body, some true, some "timeout"⟩
        now rp with
    | Except.error e => Except.error e
    | Except.ok (st1, effs) => Except.ok ({ st1 with expire_timer := none }, effs)

/-- `Refer.prototype.close` (notify-capable variant): an active incoming
subscription first gets a terminating NOTIFY, an active outgoing one a
synthesized final-notify event; both timers are cleared, the dialog is
terminated and the refer is marked closed. -/
def closeRefer (st : ReferSt) (now : Int) (rp : Nat → Option String) :
    Except JsError (ReferSt × List ReferEffect) :=
  let step1 : Except JsError (ReferSt × List ReferEffect) :=
    if st.subscription_state = SubState.active then
      if st.direction = some Direction.incoming then
        referNotify st ⟨none, none, st.last_notify_body, some true, none⟩ now rp
      else
        Except.ok (st, [ReferEffect.emittedFinalNotify])
    else Except.ok (st, [])
  match step1 with
  | Except.error e => Except.error e
  | Except.ok (st1, effs) =>
      Except.ok ({ st1 with
          expire_timer := none
          notify_timer := none
          dialog := none
          closed := true },
        effs ++ (if st1.dialog = none then [] else [ReferEffect.dialogTerminated]))

/-- `Refer.prototype.receiveSubscribe`: 481 for outgoing refers, 403 unless
the subscription is `active` or `terminated`, 489 for a non-refer Event;
`Expires: 0` triggers a terminating NOTIFY, a 200 and close; otherwise the
subscription is (re)activated with the given or default expiry. -/
def receiveSubscribe (st : ReferSt) (event : Option String)
    (expires : Option Int) (now : Int) (rp : Nat → Option String) :
    Except JsError (ReferSt × List ReferEffect) :=
  if st.direction ≠ some Direction.incoming then
    Except.ok (st, [ReferEffect.reply 481])
  else if st.subscription_state ≠ SubState.active ∧
      st.subscription_state ≠ SubState.terminated then
    Except.ok (st, [ReferEffect.reply 403])
  else if event ≠ some "refer" then
    Except.ok (st, [ReferEffect.reply 489])
  else if expires = some 0 then
    match referNotify st ⟨none, none, st.last_notify_body, some true, none⟩ now rp with
    | Except.error e => Except.error e
    | Except.ok (st1, effs1) =>
        match closeRefer st1 now rp with
        | Except.error e => Except.error e
        | Except.ok (st2, effs2) =>
            Except.ok (st2, effs1 ++ [ReferEffect.reply 200] ++ effs2)
  else
    let expiresMs : Int := match expires with
      | some v => if 0 < v then v * 1000 else DEFAULT_EXPIRES
      | none => DEFAULT_EXPIRES
    Except.ok ({ st with
        subscription_state := SubState.active
        subscription_expires := some (now + expiresMs)
        expire_timer := some expiresMs },
      [ReferEffect.reply 200])

/-- C6 counterexample: an incoming REFER subscription whose
`subscription_state` is `terminated` receives a SUBSCRIBE with
`Event: refer` and no Expires header — `receiveSubscribe` replies 200 and
moves the subscription back to `active`, so Terminated is not absorbing. -/
theorem refer_terminated_absorbing_C6_counterexample :
    ∃ st' effs, receiveSubscribe
        ⟨some Direction.incoming, false, SubState.terminated, none, none, none,
          none, none, none, "c", true, 0⟩
        (some "refer") none 0 (fun _ => none) = Except.ok (st', effs) ∧
      st'.subscription_state = SubState.active ∧
      effs = [ReferEffect.reply 200] :=
  ⟨_, _, rfl, rfl, rfl⟩

/-- C6 (amended): for a REFER subscription whose `subscription_state` is
`terminated`: `notify` never leaves the state (it throws before doing
anything or returns ignoring the call), subscription expiry is a no-op, and
an incoming SUBSCRIBE leaves the state `terminated` when it is rejected
(wrong direction 481, wrong event 489) or carries `Expires: 0` (terminating
close) — but an incoming SUBSCRIBE with `Event: refer` and a positive or
absent Expires re-activates the subscription (`terminated → active`), so
Terminated is NOT absorbing for that one transition (the source comments
that the refer is kept open "in case they re-subscribe"). -/
theorem refer_terminated_absorbing_C6 (st : ReferSt) (now : Int)
    (rp : Nat → Option String)
    (h : st.subscription_state = SubState.terminated) :
    (∀ opts, referNotify st opts now rp = Except.error JsError.typeError ∨
      referNotify st opts now rp = Except.ok (st, [])) ∧
    (subscriptionExpiredR st now rp = Except.ok (st, [])) ∧
    (st.direction ≠ some Direction.incoming →
      ∀ ev ex, receiveSubscribe st ev ex now rp =
        Except.ok (st, [ReferEffect.reply 481])) ∧
    (st.direction = some Direction.incoming →
      ∀ ev ex, ev ≠ some "refer" →
        receiveSubscribe st ev ex now rp =
          Except.ok (st, [ReferEffect.reply 489])) ∧
    (st.direction = some Direction.incoming →
      ∀ ex, ex = some (0 : Int) →
        ∃ st' effs, receiveSubscribe st (some "refer") ex now rp =
            Except.ok (st', effs) ∧
          st'.subscription_state = SubState.terminated ∧ st'.closed = true) ∧
    (st.direction = some Direction.incoming →
      ∀ ex, ex ≠ some (0 : Int) →
        ∃ st', receiveSubscribe st (some "refer") ex now rp =
            Except.ok (st', [ReferEffect.reply 200]) ∧
          st'.subscription_state = SubState.active) := by
  have hna : st.subscription_state ≠ SubState.active := by rw [h]; decide
  have hg : ¬ (st.subscription_state ≠ SubState.active ∧
      st.subscription_state ≠ SubState.terminated) := by
    rw [h]; simp
  refine ⟨?_, ?_, ?_, ?_, ?_, ?_⟩
  · intro opts
    unfold referNotify
    by_cases h1 : st.direction ≠ some Direction.incoming
    · rw [if_pos h1]; exact Or.inl rfl
    · rw [if_neg h1]
      by_cases h2 : opts.body ≠ none ∧ opts.finalNotify = none
      · rw [if_pos h2]; exact Or.inl rfl
      · rw [if_neg h2, if_pos hna]
        exact Or.inr rfl
  · unfold subscriptionExpiredR
    rw [if_pos h]
  · intro hdir ev ex
    unfold receiveSubscribe
    rw [if_pos hdir]
  · intro hdir ev ex hev
    unfold receiveSubscribe
    rw [if_neg (by simp [hdir]), if_neg hg, if_pos hev]
  · intro hdir ex hex
    have hrn : referNotify st ⟨none, none, st.last_notify_body, some true, none⟩
        now rp = Except.ok (st, []) := by
      unfold referNotify
      rw [if_neg (by simp [hdir]), if_neg (by simp), if_pos hna]
    have hcl : closeRefer st now rp = Except.ok ({ st with
        expire_timer := none
        notify_timer := none
        dialog := none
        closed := true },
        [] ++ (if st.dialog = none then [] else [ReferEffect.dialogTerminated])) := by
      unfold closeRefer
      rw [if_neg (by rw [h]; decide : ¬ st.subscription_state = SubState.active)]
    unfold receiveSubscribe
    rw [if_neg (by simp [hdir]), if_neg hg,
      if_neg (by simp : ¬ (some "refer" ≠ some "refer")), if_pos hex, hrn]
    simp only [hcl]
    exact ⟨_, _, rfl, h, rfl⟩
  · intro hdir ex hex
    unfold receiveSubscribe
    rw [if_neg (by simp [hdir]), if_neg hg,
      if_neg (by simp : ¬ (some "refer" ≠ some "refer")), if_neg hex]
    exact ⟨_, rfl, rfl⟩

theorem refer_terminated_absorbing_C6_witness :
    subscriptionExpiredR
      ⟨some Direction.incoming, false, SubState.terminated, none, none, none,
        none, none, none, "c", true, 0⟩ 0 (fun _ => none) =
      Except.ok (⟨some Direction.incoming, false, SubState.terminated, none,
        none, none, none, none, none, "c", true, 0⟩, []) :=
  (refer_terminated_absorbing_C6
    ⟨some Direction.incoming, false, SubState.terminated, none, none, none,
      none, none, none, "c", true, 0⟩ 0 (fun _ => none) rfl).2.1

/-- The outcome of `Refer.prototype.send` (notify-capable variant) after the
URI checks: an invalid refer URI latches INVALID_REFER_TO_TARGET, an invalid
target INVALID_TARGET (the refer check runs second and wins when both fail);
on failure `failed` (originator local) is emitted instead of sending; on
success the REFER goes out and the NOTIFY-arrival timer is armed with
Timer F.  (The UA-level `newRefer` emission and request headers are not
observed by the claim.) -/
def referSendOutcome (st : ReferSt) (targetValid referValid : Bool) :
    ReferSt × List ReferEffect :=
  let st1 := { st with direction := some Direction.outgoing }
  let failCause : Option String :=
    if referValid = false then some "INVALID_REFER_TO_TARGET"
    else if targetValid = false then some "INVALID_TARGET"
    else none
  match failCause with
  | some c => (st1, [ReferEffect.emittedFailed "local" c])
  | none => ({ st1 with notify_timer := some TIMER_F }, [ReferEffect.requestSent])

/-- `Refer.prototype.receiveResponse` (notify-capable variant): ignore when
closed; ignore 1xx; on 2xx emit `accepted` and deliberately do NOT close —
the dialog is formed by the first NOTIFY; on ≥300 close and emit `failed`
(status mapped through the missing `sipErrorCause`, kept as the raw code). -/
def referReceiveResponse (st : ReferSt) (status_code : Nat) (now : Int)
    (rp : Nat → Option String) : Except JsError (ReferSt × List ReferEffect) :=
  if st.closed then Except.ok (st, [])
  else if 100 ≤ status_code ∧ status_code ≤ 199 then Except.ok (st, [])
  else if 200 ≤ status_code ∧ status_code ≤ 299 then
    Except.ok (st, [ReferEffect.emittedAccepted])
  else
    match closeRefer st now rp with
    | Except.error e => Except.error e
    | Except.ok (st1, effs) =>
        Except.ok (st1, effs ++ [ReferEffect.emittedFailedStatus "remote" status_code])

/-- An incoming NOTIFY as read by `Refer.prototype.receiveNotify`: the
dialog-forming message fields plus the Event / Subscription-State /
Content-Type headers and the status code of the parsed `message/sipfrag`
body (`none` = the body did not parse). -/
structure NotifyIn where
  msg : Msg
  event : Option String
  subState : Option (SubState × Int)
  content_type : Option String
  bodyStatus : Option Nat
  deriving DecidableEq, Repr

/-- Whether a character list starts with the given pattern. -/
def startsWithChars : List Char → List Char → Bool
  | [], _ => true
  | _ :: _, [] => false
  | c :: cs, d :: ds => (c == d) && startsWithChars cs ds

/-- Whether a character list contains the given pattern
(`String.prototype.indexOf(pat) >= 0`). -/
def containsChars (pat : List Char) : List Char → Bool
  | [] => startsWithChars pat []
  | d :: ds => startsWithChars pat (d :: ds) || containsChars pat ds

/-- `typeHeader.indexOf('message/sipfrag') < 0` check: a missing
Content-Type is allowed, otherwise it must contain `message/sipfrag`. -/
def ctAllowsSipfrag : Option String → Bool
  | none => true
  | some ct => containsChars "message/sipfrag".toList ct.toList

/-- Tail of `receiveNotify` after the dialog exists: install the new
subscription state and expiry, clear the NOTIFY-arrival and expiry timers,
reply 200, map the sipfrag status to a session event (progress < 200,
started < 300, failed otherwise); a terminating state closes the refer,
otherwise the expiry timer is re-armed at `(expires + T4) * 1000` (the
source's own unit mix); finally the `notify` event is emitted with
originator remote.  (`last_notify_body` stores the parsed message for
outgoing refers and is not tracked here — no verified claim reads it.) -/
def receiveNotifyTail (st : ReferSt) (sstate : SubState) (sexpires : Int)
    (pcode : Nat) (now : Int) (rp : Nat → Option String) :
    Except JsError (ReferSt × List ReferEffect) :=
  let st1 := { st with
    subscription_state := sstate
    subscription_expires := some (now + sexpires * 1000)
    notify_timer := none
    expire_timer := none }
  let sessionEvent := if pcode < 200 then "progress"
    else if pcode < 300 then "started" else "failed"
  if sstate = SubState.terminated then
    match closeRefer st1 now rp with
    | Except.error e => Except.error e
    | Except.ok (st2, effs) =>
        Except.ok (st2, [ReferEffect.reply 200] ++ effs ++
          [ReferEffect.emittedNotifyEv "remote" sessionEvent true])
  else
    Except.ok ({ st1 with expire_timer := some ((sexpires + T4ms) * 1000) },
      [ReferEffect.reply 200,
       ReferEffect.emittedNotifyEv "remote" sessionEvent false])

/-- `Refer.prototype.receiveNotify` (notify-capable variant): 481 unless the
refer is outgoing with a live subscription; 489 + close for a wrong Event;
400 + close for a missing Subscription-State; 415 + close for a wrong
Content-Type; 400 + close for an unparseable body; 603 + terminate + close
when nobody listens for `notify`; otherwise the first NOTIFY forms the
dialog (UAS role, remote tag = the NOTIFY's From tag; failure closes and
emits `failed('remote', INTERNAL_ERROR)`), and processing continues in
`receiveNotifyTail`. -/
def referReceiveNotify (st : ReferSt) (req : NotifyIn) (now : Int)
    (rp : Nat → Option String) : Except JsError (ReferSt × List ReferEffect) :=
  if st.direction ≠ some Direction.outgoing ∨
      (st.subscription_state ≠ SubState.active ∧
        st.subscription_state ≠ SubState.pending) then
    Except.ok (st, [ReferEffect.reply 481])
  else if req.event ≠ some "refer" then
    match closeRefer st now rp with
    | Except.error e => Except.error e
    | Except.ok (st1, effs) => Except.ok (st1, [ReferEffect.reply 489] ++ effs)
  else
    match req.subState with
    | none =>
        match closeRefer st now rp with
        | Except.error e => Except.error e
        | Except.ok (st1, effs) => Except.ok (st1, [ReferEffect.reply 400] ++ effs)
    | some (sstate, sexpires) =>
        if ctAllowsSipfrag req.content_type = false then
          match closeRefer st now rp with
          | Except.error e => Except.error e
          | Except.ok (st1, effs) => Except.ok (st1, [ReferEffect.reply 415] ++ effs)
        else
          match req.bodyStatus with
          | none =>
              match closeRefer st now rp with
              | Except.error e => Except.error e
              | Except.ok (st1, effs) =>
                  Except.ok (st1, [ReferEffect.reply 400] ++ effs)
          | some pcode =>
              if st.notifyListeners = 0 then
                match closeRefer { st with
                    subscription_state := SubState.terminated } now rp with
                | Except.error e => Except.error e
                | Except.ok (st1, effs) =>
                    Except.ok (st1, [ReferEffect.reply 603] ++ effs)
              else
                match st.dialog with
                | none =>
                    match mkDialog req.msg Role.UAS none with
                    | none =>
                        match closeRefer { st with
                            remote_tag := some req.msg.from_tag } now rp with
                        | Except.error e => Except.error e
                        | Except.ok (st1, effs) =>
                            Except.ok (st1, effs ++
                              [ReferEffect.emittedFailed "remote" "INTERNAL_ERROR"])
                    | some d =>
                        receiveNotifyTail { st with
                            remote_tag := some req.msg.from_tag
                            dialog := some d }
                          sstate sexpires pcode now rp
                | some _ => receiveNotifyTail st sstate sexpires pcode now rp

/-- C7: for an outgoing out-of-dialog REFER: (1) a successful send arms the
NOTIFY-arrival timer with Timer F; (2) a 2xx response to the REFER emits
`accepted` and tears nothing down — the state (including `closed` and the
dialog) is untouched and no dialog is terminated; (3) when no dialog exists
yet, the first incoming NOTIFY (well-formed, with listeners and a Contact)
creates the SIP dialog with remote tag taken from that NOTIFY's From tag;
(4) when a dialog already exists, a further NOTIFY leaves it in place.
(Parts 3 and 4 are stated for a non-terminating Subscription-State, since a
terminating NOTIFY closes the refer and its dialog with it.) -/
theorem refer_outgoing_C7 :
    (∀ st : ReferSt,
      (referSendOutcome st true true).1.notify_timer = some TIMER_F ∧
      (referSendOutcome st true true).2 = [ReferEffect.requestSent]) ∧
    (∀ (st : ReferSt) (sc : Nat) (now : Int) (rp : Nat → Option String),
      st.closed = false → 200 ≤ sc → sc ≤ 299 →
      referReceiveResponse st sc now rp =
        Except.ok (st, [ReferEffect.emittedAccepted])) ∧
    (∀ (st : ReferSt) (req : NotifyIn) (now : Int) (rp : Nat → Option String)
        (sstate : SubState) (sexpires : Int) (pcode : Nat) (c : String),
      st.direction = some Direction.outgoing →
      (st.subscription_state = SubState.active ∨
        st.subscription_state = SubState.pending) →
      req.event = some "refer" →
      req.subState = some (sstate, sexpires) →
      ctAllowsSipfrag req.content_type = true →
      req.bodyStatus = some pcode →
      st.notifyListeners ≠ 0 →
      st.dialog = none →
      req.msg.contact = some c →
      req.msg.isResponse = false →
      sstate ≠ SubState.terminated →
      ∃ st' effs, referReceiveNotify st req now rp = Except.ok (st', effs) ∧
        st'.remote_tag = some req.msg.from_tag ∧
        ∃ d, st'.dialog = some d ∧
          d.id.call_id = req.msg.call_id ∧
          d.id.local_tag = req.msg.to_tag ∧
          d.id.remote_tag = req.msg.from_tag) ∧
    (∀ (st : ReferSt) (req : NotifyIn) (now : Int) (rp : Nat → Option String)
        (sstate : SubState) (sexpires : Int) (pcode : Nat) (d0 : Dialog),
      st.direction = some Direction.outgoing →
      (st.subscription_state = SubState.active ∨
        st.subscription_state = SubState.pending) →
      req.event = some "refer" →
      req.subState = some (sstate, sexpires) →
      ctAllowsSipfrag req.content_type = true →
      req.bodyStatus = some pcode →
      st.notifyListeners ≠ 0 →
      st.dialog = some d0 →
      sstate ≠ SubState.terminated →
      ∃ st' effs, referReceiveNotify st req now rp = Except.ok (st', effs) ∧
        st'.dialog = some d0) := by
  refine ⟨?_, ?_, ?_, ?_⟩
  · intro st
    exact ⟨rfl, rfl⟩
  · intro st sc now rp hcl h2 h3
    unfold referReceiveResponse
    rw [if_neg (by simp [hcl]), if_neg (by omega), if_pos ⟨h2, h3⟩]
  · intro st req now rp sstate sexpires pcode c hdir hsub hev hss hct hbody hlst
      hdlg hcontact hreqmsg hterm
    have hg1 : ¬ (st.direction ≠ some Direction.outgoing ∨
        (st.subscription_state ≠ SubState.active ∧
          st.subscription_state ≠ SubState.pending)) := by
      rcases hsub with h | h <;> simp [hdir, h]
    have hmk : mkDialog req.msg Role.UAS none =
        some (Dialog.mk ⟨req.msg.call_id, req.msg.to_tag, req.msg.from_tag⟩
          DState.confirmedD none (some req.msg.cseq) c req.msg.record_route) := by
      simp [mkDialog, hcontact, hreqmsg]
    unfold referReceiveNotify
    rw [if_neg hg1, if_neg (by simp [hev])]
    simp only [hss]
    rw [if_neg (by simp [hct])]
    simp only [hbody]
    rw [if_neg hlst]
    simp only [hdlg, hmk]
    unfold receiveNotifyTail
    rw [if_neg hterm]
    exact ⟨_, _, rfl, rfl, _, rfl, rfl, rfl, rfl⟩
  · intro st req now rp sstate sexpires pcode d0 hdir hsub hev hss hct hbody
      hlst hdlg hterm
    have hg1 : ¬ (st.direction ≠ some Direction.outgoing ∨
        (st.subscription_state ≠ SubState.active ∧
          st.subscription_state ≠ SubState.pending)) := by
      rcases hsub with h | h <;> simp [hdir, h]
    unfold referReceiveNotify
    rw [if_neg hg1, if_neg (by simp [hev])]
    simp only [hss]
    rw [if_neg (by simp [hct])]
    simp only [hbody]
    rw [if_neg hlst]
    simp only [hdlg]
    unfold receiveNotifyTail
    rw [if_neg hterm]
    exact ⟨_, _, rfl, hdlg⟩

theorem refer_outgoing_C7_witness :
    ∃ st' effs, referReceiveNotify
        ⟨some Direction.outgoing, false, SubState.pending, none, none,
          some TIMER_F, none, none, none, "c", false, 1⟩
        ⟨⟨false, 0, Method.NOTIFY, "cid", "ft", "tt", 7, some "sip:ct", []⟩,
          some "refer", some (SubState.active, 180), some "message/sipfrag",
          some 100⟩
        0 (fun _ => none) = Except.ok (st', effs) ∧
      st'.remote_tag = some "ft" ∧
      ∃ d, st'.dialog = some d ∧
        d.id.call_id = "cid" ∧ d.id.local_tag = "tt" ∧
        d.id.remote_tag = "ft" := by
  obtain ⟨st', effs, h1, h2, d, h3, h4, h5, h6⟩ := refer_outgoing_C7.2.2.1
    ⟨some Direction.outgoing, false, SubState.pending, none, none,
      some TIMER_F, none, none, none, "c", false, 1⟩
    ⟨⟨false, 0, Method.NOTIFY, "cid", "ft", "tt", 7, some "sip:ct", []⟩,
      some "refer", some (SubState.active, 180), some "message/sipfrag",
      some 100⟩
    0 (fun _ => none) SubState.active 180 100 "sip:ct"
    rfl (Or.inr rfl) rfl rfl (by decide) rfl (by decide) rfl rfl rfl (by decide)
  exact ⟨st', effs, h1, h2, d, h3, h4, h5, h6⟩
